import Mathlib

/-!
Shallow embedding of the in-memory TTL cache of the museum-catalog project
(`utils/almacen_datos.py` with the domain models `models/obra_arte.py` and
`models/departamento.py`).

Python's wall clock (`time.time()`) is made explicit: every operation that
reads the clock takes a `now : ℚ` argument.  Python dictionaries are embedded
as association lists with unique keys (`NodupKeys`); insertion replaces the
value in place, as `d[k] = v` does.  Dynamically typed values flowing through
the cache are embedded as the inductive `PyVal`, whose `vNone` constructor
plays the role of Python's `None`; a `raise ValueError(msg)` is embedded as
returning `some msg` in the second component of the result.
-/

/-- Model of the domain class `Artista` (only value fields; the class is an
immutable record for the purposes of the cache). -/
structure Artista where
  nombre : String
  nacionalidad : String
  fecha_nacimiento : String
  fecha_muerte : String
  deriving DecidableEq

/-- Model of the domain class `ObraArte` (`models/obra_arte.py`): the cache
keys works by the `id_obra` attribute. -/
structure ObraArte where
  id_obra : Int
  titulo : String
  artista : Artista
  clasificacion : Option String
  deriving DecidableEq

/-- Model of the domain class `Departamento` (`models/departamento.py`). -/
structure Departamento where
  id_departamento : Int
  nombre : String
  deriving DecidableEq

/-- Dynamically typed Python values that reach the cache API.  `vNone`
embeds Python's `None`. -/
inductive PyVal where
  | vObra (o : ObraArte)
  | vListInt (l : List Int)
  | vListDep (l : List Departamento)
  | vInt (n : Int)
  | vStr (s : String)
  | vNone
  deriving DecidableEq

/-- `isinstance(v, ObraArte)`. -/
def PyVal.isObraArte : PyVal → Bool
  | .vObra _ => true
  | _ => false

/-- `isinstance(v, list)`: both kinds of embedded lists are Python lists. -/
def PyVal.isList : PyVal → Bool
  | .vListInt _ => true
  | .vListDep _ => true
  | _ => false

/-- `EntradaCache.__init__`: a value together with its creation timestamp and
its time to live (`almacen_datos.py`, lines 13-26). -/
structure EntradaCache where
  datos : PyVal
  timestamp : ℚ
  tiempo_vida : ℚ
  deriving DecidableEq

/-- `EntradaCache.es_valida` (lines 28-35): the entry is valid while strictly
less than `tiempo_vida` seconds have elapsed since `timestamp`. -/
def EntradaCache.es_valida (e : EntradaCache) (now : ℚ) : Bool :=
  decide (now - e.timestamp < e.tiempo_vida)

/-- `EntradaCache.obtener_datos` (lines 37-44): the stored value while the
entry is valid, `None` afterwards. -/
def EntradaCache.obtener_datos (e : EntradaCache) (now : ℚ) : PyVal :=
  if e.es_valida now then e.datos else PyVal.vNone

section Diccionario

variable {α β : Type} [DecidableEq α]

/-- `k in d` / `d[k]` on a Python dictionary embedded as an association
list. -/
def lookupA (k : α) : List (α × β) → Option β
  | [] => none
  | (k1, v1) :: t => if k = k1 then some v1 else lookupA k t

/-- `d[k] = v`: replace in place when the key is present, append
otherwise (Python dictionaries preserve insertion order). -/
def insertA (k : α) (v : β) : List (α × β) → List (α × β)
  | [] => [(k, v)]
  | (k1, v1) :: t => if k = k1 then (k, v) :: t else (k1, v1) :: insertA k v t

/-- `del d[k]`. -/
def eraseA (k : α) (l : List (α × β)) : List (α × β) :=
  l.filter (fun p => decide (p.1 ≠ k))

/-- The keys of the dictionary. -/
def claves (l : List (α × β)) : List α :=
  l.map Prod.fst

/-- A Python dictionary never holds two entries under the same key. -/
abbrev NodupKeys (l : List (α × β)) : Prop :=
  (claves l).Nodup

end Diccionario

/-- The statistics counters (`AlmacenDatos.__init__`, lines 79-87). -/
structure Estadisticas where
  hits_obras : ℕ
  misses_obras : ℕ
  hits_departamentos : ℕ
  misses_departamentos : ℕ
  hits_busquedas : ℕ
  misses_busquedas : ℕ
  limpiezas_automaticas : ℕ
  deriving DecidableEq

/-- The state of `AlmacenDatos` (lines 61-87): four cache regions plus the
statistics counters. -/
structure AlmacenDatos where
  cache_obras : List (Int × EntradaCache)
  cache_departamentos : Option EntradaCache
  cache_busquedas : List (String × EntradaCache)
  cache_ids_departamento : List (Int × EntradaCache)
  estadisticas : Estadisticas
  deriving DecidableEq

/-- `TIEMPO_VIDA_OBRAS = 600`. -/
def TIEMPO_VIDA_OBRAS : ℚ := 600

/-- `TIEMPO_VIDA_DEPARTAMENTOS = 1800`. -/
def TIEMPO_VIDA_DEPARTAMENTOS : ℚ := 1800

/-- `TIEMPO_VIDA_BUSQUEDAS = 300`. -/
def TIEMPO_VIDA_BUSQUEDAS : ℚ := 300

/-- `TIEMPO_VIDA_LISTAS_IDS = 180`. -/
def TIEMPO_VIDA_LISTAS_IDS : ℚ := 180

/-- `AlmacenDatos.__init__`: empty regions, zeroed counters. -/
def vacio : AlmacenDatos :=
  ⟨[], none, [], [], ⟨0, 0, 0, 0, 0, 0, 0⟩⟩

/-- Message of the `ValueError` raised by `almacenar_obra`. -/
def MSG_OBRA : String := "El parámetro debe ser una instancia de ObraArte"

/-- Message of the `ValueError` raised by `almacenar_departamentos`. -/
def MSG_DEPARTAMENTOS : String := "El parámetro debe ser una lista de departamentos"

/-- Message of the `ValueError` raised by `almacenar_resultado_busqueda` and
`almacenar_ids_departamento`. -/
def MSG_LISTA_IDS : String := "ids_obras debe ser una lista"

namespace AlmacenDatos

/-- `obtener_obra` (lines 89-112): a valid entry is a hit; an absent entry is
a miss; an expired entry is deleted and counted as a miss. -/
def obtener_obra (st : AlmacenDatos) (now : ℚ) (id_obra : Int) :
    AlmacenDatos × PyVal :=
  match lookupA id_obra st.cache_obras with
  | some entrada =>
      let obra := entrada.obtener_datos now
      if obra ≠ PyVal.vNone then
        ({ st with estadisticas :=
            { st.estadisticas with hits_obras := st.estadisticas.hits_obras + 1 } },
         obra)
      else
        ({ st with
            cache_obras := eraseA id_obra st.cache_obras,
            estadisticas :=
              { st.estadisticas with misses_obras := st.estadisticas.misses_obras + 1 } },
         PyVal.vNone)
  | none =>
      ({ st with estadisticas :=
          { st.estadisticas with misses_obras := st.estadisticas.misses_obras + 1 } },
       PyVal.vNone)

/-- Combined size of the three keyed regions (`_limpiar_cache_si_necesario`,
line 332). -/
def total_entradas (st : AlmacenDatos) : ℕ :=
  st.cache_obras.length + st.cache_busquedas.length + st.cache_ids_departamento.length

/-- One region's part of `_limpiar_entradas_expiradas` (lines 341-362):
collect the keys of the expired entries, then delete each. -/
def limpiar_region {α : Type} [DecidableEq α] (now : ℚ)
    (cache : List (α × EntradaCache)) : List (α × EntradaCache) :=
  let expirados := (cache.filter (fun p => ! p.2.es_valida now)).map Prod.fst
  expirados.foldl (fun acc k => eraseA k acc) cache

/-- `_limpiar_entradas_expiradas` (lines 338-366): sweep the three keyed
regions, then drop the departments slot when it has expired. -/
def limpiar_entradas_expiradas (st : AlmacenDatos) (now : ℚ) : AlmacenDatos :=
  let st3 := { st with
    cache_obras := limpiar_region now st.cache_obras,
    cache_busquedas := limpiar_region now st.cache_busquedas,
    cache_ids_departamento := limpiar_region now st.cache_ids_departamento }
  match st3.cache_departamentos with
  | some e => if e.es_valida now then st3 else { st3 with cache_departamentos := none }
  | none => st3

/-- `_limpiar_cache_si_necesario` (lines 326-336): sweep and count when the
three keyed regions together hold more than 1000 entries. -/
def limpiar_cache_si_necesario (st : AlmacenDatos) (now : ℚ) : AlmacenDatos :=
  if 1000 < st.total_entradas then
    let st1 := st.limpiar_entradas_expiradas now
    { st1 with estadisticas :=
        { st1.estadisticas with
            limpiezas_automaticas := st1.estadisticas.limpiezas_automaticas + 1 } }
  else st

/-- `almacenar_obra` (lines 114-129): type-check, insert keyed by
`obra.id_obra`, then run the auto-cleanup check. -/
def almacenar_obra (st : AlmacenDatos) (now : ℚ) (obra : PyVal) :
    AlmacenDatos × Option String :=
  match obra with
  | .vObra o =>
      let entrada : EntradaCache := ⟨PyVal.vObra o, now, TIEMPO_VIDA_OBRAS⟩
      let st1 := { st with cache_obras := insertA o.id_obra entrada st.cache_obras }
      (st1.limpiar_cache_si_necesario now, none)
  | _ => (st, some MSG_OBRA)

/-- `obtener_departamentos` (lines 131-150). -/
def obtener_departamentos (st : AlmacenDatos) (now : ℚ) : AlmacenDatos × PyVal :=
  match st.cache_departamentos with
  | some entrada =>
      let departamentos := entrada.obtener_datos now
      if departamentos ≠ PyVal.vNone then
        ({ st with estadisticas :=
            { st.estadisticas with
                hits_departamentos := st.estadisticas.hits_departamentos + 1 } },
         departamentos)
      else
        ({ st with
            cache_departamentos := none,
            estadisticas :=
              { st.estadisticas with
                  misses_departamentos := st.estadisticas.misses_departamentos + 1 } },
         PyVal.vNone)
  | none =>
      ({ st with estadisticas :=
          { st.estadisticas with
              misses_departamentos := st.estadisticas.misses_departamentos + 1 } },
       PyVal.vNone)

/-- `almacenar_departamentos` (lines 152-164): no auto-cleanup check. -/
def almacenar_departamentos (st : AlmacenDatos) (now : ℚ) (departamentos : PyVal) :
    AlmacenDatos × Option String :=
  if departamentos.isList then
    ({ st with cache_departamentos := some ⟨departamentos, now, TIEMPO_VIDA_DEPARTAMENTOS⟩ },
     none)
  else (st, some MSG_DEPARTAMENTOS)

/-- `obtener_resultado_busqueda` (lines 166-189). -/
def obtener_resultado_busqueda (st : AlmacenDatos) (now : ℚ) (clave_busqueda : String) :
    AlmacenDatos × PyVal :=
  match lookupA clave_busqueda st.cache_busquedas with
  | some entrada =>
      let resultado := entrada.obtener_datos now
      if resultado ≠ PyVal.vNone then
        ({ st with estadisticas :=
            { st.estadisticas with hits_busquedas := st.estadisticas.hits_busquedas + 1 } },
         resultado)
      else
        ({ st with
            cache_busquedas := eraseA clave_busqueda st.cache_busquedas,
            estadisticas :=
              { st.estadisticas with
                  misses_busquedas := st.estadisticas.misses_busquedas + 1 } },
         PyVal.vNone)
  | none =>
      ({ st with estadisticas :=
          { st.estadisticas with misses_busquedas := st.estadisticas.misses_busquedas + 1 } },
       PyVal.vNone)

/-- `almacenar_resultado_busqueda` (lines 191-207): type-check, insert, then
the auto-cleanup check. -/
def almacenar_resultado_busqueda (st : AlmacenDatos) (now : ℚ) (clave_busqueda : String)
    (ids_obras : PyVal) : AlmacenDatos × Option String :=
  if ids_obras.isList then
    let entrada : EntradaCache := ⟨ids_obras, now, TIEMPO_VIDA_BUSQUEDAS⟩
    let st1 := { st with cache_busquedas := insertA clave_busqueda entrada st.cache_busquedas }
    (st1.limpiar_cache_si_necesario now, none)
  else (st, some MSG_LISTA_IDS)

/-- `obtener_ids_departamento` (lines 209-230): note that this getter touches
no hit or miss counter. -/
def obtener_ids_departamento (st : AlmacenDatos) (now : ℚ) (id_departamento : Int) :
    AlmacenDatos × PyVal :=
  match lookupA id_departamento st.cache_ids_departamento with
  | some entrada =>
      let ids := entrada.obtener_datos now
      if ids ≠ PyVal.vNone then (st, ids)
      else
        ({ st with cache_ids_departamento := eraseA id_departamento st.cache_ids_departamento },
         PyVal.vNone)
  | none => (st, PyVal.vNone)

/-- `almacenar_ids_departamento` (lines 232-245): type-check then insert;
unlike the works and search-result stores it runs no auto-cleanup check. -/
def almacenar_ids_departamento (st : AlmacenDatos) (now : ℚ) (id_departamento : Int)
    (ids_obras : PyVal) : AlmacenDatos × Option String :=
  if ids_obras.isList then
    let entrada : EntradaCache := ⟨ids_obras, now, TIEMPO_VIDA_LISTAS_IDS⟩
    ({ st with cache_ids_departamento := insertA id_departamento entrada st.cache_ids_departamento },
     none)
  else (st, some MSG_LISTA_IDS)

/-- `buscar_obras_por_criterio` (lines 247-265): collect the valid cached
works satisfying the predicate, in region order. -/
def buscar_obras_por_criterio (st : AlmacenDatos) (now : ℚ) (criterio : PyVal → Bool) :
    List PyVal :=
  st.cache_obras.foldl
    (fun obras_encontradas p =>
      let obra := p.2.obtener_datos now
      if obra ≠ PyVal.vNone ∧ criterio obra = true then obras_encontradas ++ [obra]
      else obras_encontradas)
    []

/-- `invalidar_cache_obras` (lines 267-270). -/
def invalidar_cache_obras (st : AlmacenDatos) : AlmacenDatos :=
  { st with cache_obras := [] }

/-- `invalidar_cache_departamentos` (lines 272-275). -/
def invalidar_cache_departamentos (st : AlmacenDatos) : AlmacenDatos :=
  { st with cache_departamentos := none }

/-- `invalidar_cache_busquedas` (lines 277-280). -/
def invalidar_cache_busquedas (st : AlmacenDatos) : AlmacenDatos :=
  { st with cache_busquedas := [] }

/-- `invalidar_todo_cache` (lines 282-288). -/
def invalidar_todo_cache (st : AlmacenDatos) : AlmacenDatos :=
  { st with
      cache_obras := [],
      cache_departamentos := none,
      cache_busquedas := [],
      cache_ids_departamento := [] }

/-- `_estimar_uso_memoria` (lines 368-382): 2 KB per work, a flat 5 KB when
the departments slot is occupied, 0.5 KB per search result, 1 KB per
department id-list, truncated with `int(...)` (the sum is never negative, so
truncation is the floor). -/
def estimar_uso_memoria (st : AlmacenDatos) : ℤ :=
  let memoria_obras : ℚ := st.cache_obras.length * 2
  let memoria_departamentos : ℚ := if st.cache_departamentos.isSome then 5 else 0
  let memoria_busquedas : ℚ := st.cache_busquedas.length * (1 / 2)
  let memoria_ids_dept : ℚ := st.cache_ids_departamento.length * 1
  ⌊memoria_obras + memoria_departamentos + memoria_busquedas + memoria_ids_dept⌋

end AlmacenDatos

/-- The record returned by `obtener_estadisticas_cache` (lines 290-324). -/
structure EstadisticasCache where
  hits_obras : ℕ
  misses_obras : ℕ
  hits_departamentos : ℕ
  misses_departamentos : ℕ
  hits_busquedas : ℕ
  misses_busquedas : ℕ
  limpiezas_automaticas : ℕ
  obras_en_cache : ℕ
  busquedas_en_cache : ℕ
  departamentos_en_cache : ℕ
  ids_departamentos_en_cache : ℕ
  memoria_estimada_kb : ℤ
  hit_ratio_obras : ℚ
  hit_ratio_departamentos : ℚ
  hit_ratio_busquedas : ℚ
  deriving DecidableEq

/-- The record returned by `limpiar_cache_manual` (lines 384-419). -/
structure ReporteLimpieza where
  obras_eliminadas : ℤ
  busquedas_eliminadas : ℤ
  ids_departamentos_eliminados : ℤ
  departamentos_eliminados : ℤ
  deriving DecidableEq

namespace AlmacenDatos

/-- `obtener_estadisticas_cache` (lines 290-324): counters, raw region sizes
(valid and stale entries alike - no clock is consulted), the memory estimate
and the three hit ratios. -/
def obtener_estadisticas_cache (st : AlmacenDatos) : EstadisticasCache :=
  let e := st.estadisticas
  let total_obras := e.hits_obras + e.misses_obras
  let total_departamentos := e.hits_departamentos + e.misses_departamentos
  let total_busquedas := e.hits_busquedas + e.misses_busquedas
  { hits_obras := e.hits_obras
    misses_obras := e.misses_obras
    hits_departamentos := e.hits_departamentos
    misses_departamentos := e.misses_departamentos
    hits_busquedas := e.hits_busquedas
    misses_busquedas := e.misses_busquedas
    limpiezas_automaticas := e.limpiezas_automaticas
    obras_en_cache := st.cache_obras.length
    busquedas_en_cache := st.cache_busquedas.length
    departamentos_en_cache := if st.cache_departamentos.isSome then 1 else 0
    ids_departamentos_en_cache := st.cache_ids_departamento.length
    memoria_estimada_kb := st.estimar_uso_memoria
    hit_ratio_obras := if 0 < total_obras then (e.hits_obras : ℚ) / (total_obras : ℚ) else 0
    hit_ratio_departamentos := if 0 < total_departamentos then (e.hits_departamentos : ℚ) / (total_departamentos : ℚ) else 0
    hit_ratio_busquedas := if 0 < total_busquedas then (e.hits_busquedas : ℚ) / (total_busquedas : ℚ) else 0 }

/-- `limpiar_cache_manual` (lines 384-419): count each region, sweep with
`_limpiar_entradas_expiradas`, count again and report the differences. -/
def limpiar_cache_manual (st : AlmacenDatos) (now : ℚ) :
    AlmacenDatos × ReporteLimpieza :=
  let antes_obras := st.cache_obras.length
  let antes_busquedas := st.cache_busquedas.length
  let antes_ids := st.cache_ids_departamento.length
  let antes_departamentos := if st.cache_departamentos.isSome then 1 else 0
  let st1 := st.limpiar_entradas_expiradas now
  let despues_obras := st1.cache_obras.length
  let despues_busquedas := st1.cache_busquedas.length
  let despues_ids := st1.cache_ids_departamento.length
  let despues_departamentos := if st1.cache_departamentos.isSome then 1 else 0
  (st1,
   { obras_eliminadas := (antes_obras : ℤ) - (despues_obras : ℤ)
     busquedas_eliminadas := (antes_busquedas : ℤ) - (despues_busquedas : ℤ)
     ids_departamentos_eliminados := (antes_ids : ℤ) - (despues_ids : ℤ)
     departamentos_eliminados := (antes_departamentos : ℤ) - (despues_departamentos : ℤ) })

end AlmacenDatos

/-- The three keyed regions of a reachable state have Python-dictionary key
uniqueness. -/
abbrev BuenEstado (st : AlmacenDatos) : Prop :=
  NodupKeys st.cache_obras ∧ NodupKeys st.cache_busquedas ∧
    NodupKeys st.cache_ids_departamento

section DiccionarioLemas

variable {α β : Type} [DecidableEq α]

theorem mem_claves_iff {k : α} {l : List (α × β)} :
    k ∈ claves l ↔ ∃ v, (k, v) ∈ l := by
  constructor
  · intro h
    obtain ⟨⟨k1, v1⟩, hmem, hk⟩ := List.mem_map.mp h
    subst hk
    exact ⟨v1, hmem⟩
  · rintro ⟨v, hv⟩
    exact List.mem_map_of_mem Prod.fst hv

theorem lookupA_insertA_self (k : α) (v : β) (l : List (α × β)) :
    lookupA k (insertA k v l) = some v := by
  induction l with
  | nil => simp [insertA, lookupA]
  | cons p t ih =>
      obtain ⟨k1, v1⟩ := p
      by_cases h : k = k1
      · simp [insertA, h, lookupA]
      · simp [insertA, h, lookupA, ih]

theorem lookupA_insertA_ne (k k1 : α) (v : β) (l : List (α × β)) (h : k ≠ k1) :
    lookupA k (insertA k1 v l) = lookupA k l := by
  induction l with
  | nil => simp [insertA, lookupA, h]
  | cons p t ih =>
      obtain ⟨k2, v2⟩ := p
      by_cases h1 : k1 = k2
      · subst h1
        simp [insertA, lookupA, h]
      · by_cases h2 : k = k2 <;> simp [insertA, lookupA, h1, h2, ih]

theorem lookupA_mem {k : α} {v : β} {l : List (α × β)} (h : lookupA k l = some v) :
    (k, v) ∈ l := by
  induction l with
  | nil => simp [lookupA] at h
  | cons p t ih =>
      obtain ⟨k1, v1⟩ := p
      by_cases h1 : k = k1
      · subst h1
        simp [lookupA] at h
        simp [h]
      · simp [lookupA, h1] at h
        exact List.mem_cons_of_mem _ (ih h)

theorem lookupA_eq_none_iff (k : α) (l : List (α × β)) :
    lookupA k l = none ↔ k ∉ claves l := by
  induction l with
  | nil => simp [lookupA, claves]
  | cons p t ih =>
      obtain ⟨k1, v1⟩ := p
      by_cases h1 : k = k1
      · subst h1
        simp [lookupA, claves]
      · simp [lookupA, claves, h1, ih]

theorem mem_claves_of_lookupA {k : α} {v : β} {l : List (α × β)}
    (h : lookupA k l = some v) : k ∈ claves l :=
  mem_claves_iff.mpr ⟨v, lookupA_mem h⟩

theorem claves_insertA_of_mem {k : α} (v : β) {l : List (α × β)} (h : k ∈ claves l) :
    claves (insertA k v l) = claves l := by
  induction l with
  | nil => simp [claves] at h
  | cons p t ih =>
      obtain ⟨k1, v1⟩ := p
      by_cases h1 : k = k1
      · simp [insertA, h1, claves]
      · have h2 : k ∈ k1 :: List.map Prod.fst t := h
        have hkt : k ∈ claves t := by
          rcases List.mem_cons.mp h2 with h3 | h3
          · exact absurd h3 h1
          · exact h3
        have := ih hkt
        simp only [insertA, if_neg h1]
        simpa [claves] using this

theorem claves_insertA_of_not_mem {k : α} (v : β) {l : List (α × β)} (h : k ∉ claves l) :
    claves (insertA k v l) = claves l ++ [k] := by
  induction l with
  | nil => simp [insertA, claves]
  | cons p t ih =>
      obtain ⟨k1, v1⟩ := p
      have hne : k ≠ k1 := by
        intro hk
        exact h (by simp [claves, hk])
      have hkt : k ∉ claves t := by
        intro hk
        exact h (by simp [claves]; right; simpa [claves] using hk)
      have := ih hkt
      simp only [insertA, if_neg hne]
      simpa [claves] using this

theorem nodupKeys_insertA (k : α) (v : β) {l : List (α × β)} (h : NodupKeys l) :
    NodupKeys (insertA k v l) := by
  by_cases hm : k ∈ claves l
  · unfold NodupKeys
    rw [claves_insertA_of_mem v hm]
    exact h
  · unfold NodupKeys
    rw [claves_insertA_of_not_mem v hm]
    simpa [List.nodup_append] using ⟨h, by simpa using hm⟩

theorem foldl_eraseA (ks : List α) (l : List (α × β)) :
    ks.foldl (fun acc k => eraseA k acc) l =
      l.filter (fun p => ! decide (p.1 ∈ ks)) := by
  induction ks generalizing l with
  | nil => simp
  | cons k ks ih =>
      rw [List.foldl_cons, ih, eraseA, List.filter_filter]
      apply List.filter_congr
      intro p _
      by_cases h1 : p.1 = k <;> by_cases h2 : p.1 ∈ ks <;> simp [h1, h2]

theorem nodupKeys_filter (f : α × β → Bool) {l : List (α × β)} (h : NodupKeys l) :
    NodupKeys (l.filter f) := by
  unfold NodupKeys claves at h ⊢
  exact ((List.filter_sublist l).map Prod.fst).nodup h

theorem lookupA_filter_none {l : List (α × β)} (f : α × β → Bool) {k : α}
    (hk : lookupA k l = none) : lookupA k (l.filter f) = none := by
  rw [lookupA_eq_none_iff] at hk ⊢
  intro hc
  apply hk
  unfold claves at hc ⊢
  exact ((List.filter_sublist l).map Prod.fst).subset hc

theorem lookupA_filter {l : List (α × β)} (h : NodupKeys l) (f : α × β → Bool)
    {k : α} {v : β} (hk : lookupA k l = some v) :
    lookupA k (l.filter f) = if f (k, v) then some v else none := by
  induction l with
  | nil => simp [lookupA] at hk
  | cons p t ih =>
      obtain ⟨k1, v1⟩ := p
      have h' : (k1 :: List.map Prod.fst t).Nodup := h
      have hk1 : k1 ∉ claves t := (List.nodup_cons.mp h').1
      have hnd : NodupKeys t := (List.nodup_cons.mp h').2
      by_cases h1 : k = k1
      · subst h1
        have hv : v1 = v := by simpa [lookupA] using hk
        subst hv
        by_cases hf : f (k, v1)
        · simp [List.filter_cons, hf, lookupA]
        · have hnone : lookupA k t = none := (lookupA_eq_none_iff k t).mpr hk1
          have hnf : lookupA k (t.filter f) = none := lookupA_filter_none f hnone
          simp [List.filter_cons, hf, hnf]
      · have hk' : lookupA k t = some v := by simpa [lookupA, h1] using hk
        by_cases hf : f (k1, v1) <;>
          simp [List.filter_cons, hf, lookupA, h1, ih hnd hk']

theorem limpiar_region_eq_filter (now : ℚ) {l : List (α × EntradaCache)}
    (h : NodupKeys l) :
    AlmacenDatos.limpiar_region now l = l.filter (fun p => p.2.es_valida now) := by
  have hnd : (l.map Prod.fst).Nodup := h
  simp only [AlmacenDatos.limpiar_region]
  rw [foldl_eraseA]
  apply List.filter_congr
  intro p hp
  by_cases hv : p.2.es_valida now
  · have hnin : p.1 ∉ (l.filter (fun q => ! q.2.es_valida now)).map Prod.fst := by
      intro hmem
      obtain ⟨q, hq, hqk⟩ := List.mem_map.mp hmem
      have hql : q ∈ l := (List.mem_filter.mp hq).1
      have hqv : (! q.2.es_valida now) = true := (List.mem_filter.mp hq).2
      have hqp : q = p := List.inj_on_of_nodup_map hnd hql hp hqk
      rw [hqp] at hqv
      simp [hv] at hqv
    simp [hnin, hv]
  · have hvf : p.2.es_valida now = false := Bool.eq_false_iff.mpr hv
    have hin : p.1 ∈ (l.filter (fun q => ! q.2.es_valida now)).map Prod.fst :=
      List.mem_map.mpr ⟨p, List.mem_filter.mpr ⟨hp, by simp [hvf]⟩, rfl⟩
    simp [hin, hvf]

theorem nodupKeys_limpiar_region (now : ℚ) {l : List (α × EntradaCache)}
    (h : NodupKeys l) : NodupKeys (AlmacenDatos.limpiar_region now l) := by
  rw [limpiar_region_eq_filter now h]
  exact nodupKeys_filter _ h

end DiccionarioLemas

section EstadoLemas

/-- `_limpiar_entradas_expiradas` acts region-wise: each keyed region is
swept and the departments slot is kept only while valid; counters are left
alone. -/
theorem limpiar_entradas_expiradas_eq (st : AlmacenDatos) (now : ℚ) :
    st.limpiar_entradas_expiradas now =
      { st with
          cache_obras := AlmacenDatos.limpiar_region now st.cache_obras,
          cache_busquedas := AlmacenDatos.limpiar_region now st.cache_busquedas,
          cache_ids_departamento := AlmacenDatos.limpiar_region now st.cache_ids_departamento,
          cache_departamentos := Option.filter (fun e => e.es_valida now) st.cache_departamentos } := by
  unfold AlmacenDatos.limpiar_entradas_expiradas
  cases h : st.cache_departamentos with
  | none => simp [h, Option.filter]
  | some e => by_cases hv : e.es_valida now <;> simp [h, hv, Option.filter]

theorem buenEstado_limpiar_entradas_expiradas {st : AlmacenDatos} (now : ℚ)
    (h : BuenEstado st) : BuenEstado (st.limpiar_entradas_expiradas now) := by
  obtain ⟨h1, h2, h3⟩ := h
  rw [limpiar_entradas_expiradas_eq]
  exact ⟨nodupKeys_limpiar_region now h1, nodupKeys_limpiar_region now h2,
    nodupKeys_limpiar_region now h3⟩

theorem buenEstado_limpiar_cache_si_necesario {st : AlmacenDatos} (now : ℚ)
    (h : BuenEstado st) : BuenEstado (st.limpiar_cache_si_necesario now) := by
  unfold AlmacenDatos.limpiar_cache_si_necesario
  by_cases hc : 1000 < st.total_entradas
  · simp only [if_pos hc]
    simpa using buenEstado_limpiar_entradas_expiradas now h
  · simpa [hc] using h

theorem lookupA_obras_limpiar_si_necesario {st : AlmacenDatos} (now : ℚ) {k : Int}
    {e : EntradaCache} (h : NodupKeys st.cache_obras)
    (he : lookupA k st.cache_obras = some e) (hv : e.es_valida now = true) :
    lookupA k (st.limpiar_cache_si_necesario now).cache_obras = some e := by
  unfold AlmacenDatos.limpiar_cache_si_necesario
  by_cases hc : 1000 < st.total_entradas
  · simp only [if_pos hc, limpiar_entradas_expiradas_eq]
    rw [limpiar_region_eq_filter now h, lookupA_filter h _ he]
    simp [hv]
  · simp only [if_neg hc]
    exact he

theorem lookupA_busquedas_limpiar_si_necesario {st : AlmacenDatos} (now : ℚ)
    {k : String} {e : EntradaCache} (h : NodupKeys st.cache_busquedas)
    (he : lookupA k st.cache_busquedas = some e) (hv : e.es_valida now = true) :
    lookupA k (st.limpiar_cache_si_necesario now).cache_busquedas = some e := by
  unfold AlmacenDatos.limpiar_cache_si_necesario
  by_cases hc : 1000 < st.total_entradas
  · simp only [if_pos hc, limpiar_entradas_expiradas_eq]
    rw [limpiar_region_eq_filter now h, lookupA_filter h _ he]
    simp [hv]
  · simp only [if_neg hc]
    exact he

theorem buenEstado_almacenar_obra {st : AlmacenDatos} (now : ℚ) (v : PyVal)
    (h : BuenEstado st) : BuenEstado (st.almacenar_obra now v).1 := by
  cases v
  case vObra o =>
    simp only [AlmacenDatos.almacenar_obra]
    exact buenEstado_limpiar_cache_si_necesario now
      ⟨nodupKeys_insertA _ _ h.1, h.2.1, h.2.2⟩
  all_goals simpa [AlmacenDatos.almacenar_obra] using h

theorem buenEstado_almacenar_resultado_busqueda {st : AlmacenDatos} (now : ℚ)
    (clave : String) (v : PyVal) (h : BuenEstado st) :
    BuenEstado (st.almacenar_resultado_busqueda now clave v).1 := by
  unfold AlmacenDatos.almacenar_resultado_busqueda
  by_cases hl : v.isList
  · simp only [if_pos hl]
    exact buenEstado_limpiar_cache_si_necesario now
      ⟨h.1, nodupKeys_insertA _ _ h.2.1, h.2.2⟩
  · simpa [hl] using h

theorem buenEstado_almacenar_ids_departamento {st : AlmacenDatos} (now : ℚ)
    (d : Int) (v : PyVal) (h : BuenEstado st) :
    BuenEstado (st.almacenar_ids_departamento now d v).1 := by
  unfold AlmacenDatos.almacenar_ids_departamento
  by_cases hl : v.isList
  · simp only [if_pos hl]
    exact ⟨h.1, h.2.1, nodupKeys_insertA _ _ h.2.2⟩
  · simpa [hl] using h

end EstadoLemas

section OperacionLemas

/-- A freshly read entry whose elapsed time is below its TTL is valid. -/
theorem entrada_valida_de_lt (d : PyVal) (ts ttl now : ℚ) (h : now - ts < ttl) :
    (⟨d, ts, ttl⟩ : EntradaCache).es_valida now = true := by
  simp [EntradaCache.es_valida, h]

theorem obtener_obra_hit {st : AlmacenDatos} {now : ℚ} {i : Int} {e : EntradaCache}
    (he : lookupA i st.cache_obras = some e) (hv : e.es_valida now = true)
    (hd : e.datos ≠ PyVal.vNone) :
    st.obtener_obra now i =
      ({ st with estadisticas :=
          { st.estadisticas with hits_obras := st.estadisticas.hits_obras + 1 } },
       e.datos) := by
  simp [AlmacenDatos.obtener_obra, he, EntradaCache.obtener_datos, hv, hd]

theorem obtener_obra_ausente {st : AlmacenDatos} {now : ℚ} {i : Int}
    (hn : lookupA i st.cache_obras = none) :
    st.obtener_obra now i =
      ({ st with estadisticas :=
          { st.estadisticas with misses_obras := st.estadisticas.misses_obras + 1 } },
       PyVal.vNone) := by
  simp [AlmacenDatos.obtener_obra, hn]

theorem obtener_obra_expirada {st : AlmacenDatos} {now : ℚ} {i : Int} {e : EntradaCache}
    (he : lookupA i st.cache_obras = some e) (hv : e.es_valida now = false) :
    st.obtener_obra now i =
      ({ st with
          cache_obras := eraseA i st.cache_obras,
          estadisticas :=
            { st.estadisticas with misses_obras := st.estadisticas.misses_obras + 1 } },
       PyVal.vNone) := by
  simp [AlmacenDatos.obtener_obra, he, EntradaCache.obtener_datos, hv]

theorem obtener_resultado_busqueda_hit {st : AlmacenDatos} {now : ℚ} {k : String}
    {e : EntradaCache} (he : lookupA k st.cache_busquedas = some e)
    (hv : e.es_valida now = true) (hd : e.datos ≠ PyVal.vNone) :
    st.obtener_resultado_busqueda now k =
      ({ st with estadisticas :=
          { st.estadisticas with hits_busquedas := st.estadisticas.hits_busquedas + 1 } },
       e.datos) := by
  simp [AlmacenDatos.obtener_resultado_busqueda, he, EntradaCache.obtener_datos, hv, hd]

theorem obtener_departamentos_hit {st : AlmacenDatos} {now : ℚ} {e : EntradaCache}
    (he : st.cache_departamentos = some e) (hv : e.es_valida now = true)
    (hd : e.datos ≠ PyVal.vNone) :
    st.obtener_departamentos now =
      ({ st with estadisticas :=
          { st.estadisticas with
              hits_departamentos := st.estadisticas.hits_departamentos + 1 } },
       e.datos) := by
  simp [AlmacenDatos.obtener_departamentos, he, EntradaCache.obtener_datos, hv, hd]

/-- The auto-cleanup check only ever touches the `limpiezas_automaticas`
counter, never the hit or miss counters. -/
theorem estadisticas_limpiar_cache_si_necesario (st : AlmacenDatos) (now : ℚ) :
    (st.limpiar_cache_si_necesario now).estadisticas =
      if 1000 < st.total_entradas then
        { st.estadisticas with
            limpiezas_automaticas := st.estadisticas.limpiezas_automaticas + 1 }
      else st.estadisticas := by
  unfold AlmacenDatos.limpiar_cache_si_necesario
  split
  · simp [limpiar_entradas_expiradas_eq]
  · rfl

end OperacionLemas

section DatosConcretos

/-- Concrete artist for witnesses. -/
def artistaUno : Artista := ⟨"Vincent van Gogh", "Dutch", "1853", "1890"⟩

/-- Concrete work with id 1. -/
def obraUno : ObraArte := ⟨1, "Noche estrellada", artistaUno, some "Paintings"⟩

/-- A second concrete work sharing id 1. -/
def obraDos : ObraArte := ⟨1, "Los girasoles", artistaUno, some "Paintings"⟩

/-- Concrete work with id 2. -/
def obraOtra : ObraArte := ⟨2, "El dormitorio en Arles", artistaUno, some "Paintings"⟩

end DatosConcretos

/-- C2: a cache entry is valid exactly while strictly less than `tiempo_vida`
seconds have elapsed since its creation timestamp, and `obtener_datos` is the
stored value on a valid entry and the `None` sentinel on an expired one; both
are pure functions of the entry, so neither mutates it nor touches any owning
region. -/
theorem entrada_cache_validez (e : EntradaCache) (now : ℚ) :
    (e.es_valida now = true ↔ now - e.timestamp < e.tiempo_vida)
  ∧ (e.es_valida now = true → e.obtener_datos now = e.datos)
  ∧ (e.es_valida now = false → e.obtener_datos now = PyVal.vNone) := by
  refine ⟨by simp [EntradaCache.es_valida], ?_, ?_⟩ <;>
    intro h <;> simp [EntradaCache.obtener_datos, h]

/-- Concrete instance of `entrada_cache_validez`: an entry created at time 0
with a 300 second TTL is read back at time 10 and found expired at time
400. -/
theorem entrada_cache_validez_witness :
    ((⟨PyVal.vInt 7, 0, 300⟩ : EntradaCache).es_valida 10 = true ↔ (10 : ℚ) - 0 < 300)
  ∧ ((⟨PyVal.vInt 7, 0, 300⟩ : EntradaCache).obtener_datos 10 = PyVal.vInt 7)
  ∧ ((⟨PyVal.vInt 7, 0, 300⟩ : EntradaCache).obtener_datos 400 = PyVal.vNone) :=
  ⟨(entrada_cache_validez ⟨PyVal.vInt 7, 0, 300⟩ 10).1,
   (entrada_cache_validez ⟨PyVal.vInt 7, 0, 300⟩ 10).2.1
     (by norm_num [EntradaCache.es_valida]),
   (entrada_cache_validez ⟨PyVal.vInt 7, 0, 300⟩ 400).2.2
     (by norm_num [EntradaCache.es_valida])⟩

/-- C3: `obtener_obra` accounting. A present valid entry is a hit: the works
hit counter grows by exactly one, the regions are untouched and the cached
work is returned. An absent key is a miss: only the works miss counter grows.
An expired entry is a miss that additionally deletes the stale entry from the
works map within the same call. -/
theorem contabilidad_obtener_obra (st : AlmacenDatos) (now : ℚ) (i : Int) :
    (∀ e : EntradaCache, lookupA i st.cache_obras = some e →
        e.es_valida now = true → e.datos ≠ PyVal.vNone →
        st.obtener_obra now i =
          ({ st with estadisticas :=
              { st.estadisticas with hits_obras := st.estadisticas.hits_obras + 1 } },
           e.datos))
  ∧ (lookupA i st.cache_obras = none →
        st.obtener_obra now i =
          ({ st with estadisticas :=
              { st.estadisticas with misses_obras := st.estadisticas.misses_obras + 1 } },
           PyVal.vNone))
  ∧ (∀ e : EntradaCache, lookupA i st.cache_obras = some e →
        e.es_valida now = false →
        st.obtener_obra now i =
          ({ st with
              cache_obras := eraseA i st.cache_obras,
              estadisticas :=
                { st.estadisticas with misses_obras := st.estadisticas.misses_obras + 1 } },
           PyVal.vNone)) :=
  ⟨fun _ he hv hd => obtener_obra_hit he hv hd,
   fun hn => obtener_obra_ausente hn,
   fun _ he hv => obtener_obra_expirada he hv⟩

/-- Store used by the accounting witness: at time 700 the entry under key 1
is valid, the entry under key 2 is expired and key 3 is absent. -/
def almacenContable : AlmacenDatos :=
  { vacio with cache_obras :=
      [(1, ⟨PyVal.vObra obraUno, 650, 600⟩), (2, ⟨PyVal.vObra obraOtra, 0, 600⟩)] }

/-- Concrete instance of `contabilidad_obtener_obra` covering the hit, the
plain miss and the expired-entry miss. -/
theorem contabilidad_obtener_obra_witness :
    (almacenContable.obtener_obra 700 1 =
      ({ almacenContable with estadisticas :=
          { almacenContable.estadisticas with
              hits_obras := almacenContable.estadisticas.hits_obras + 1 } },
       PyVal.vObra obraUno))
  ∧ (almacenContable.obtener_obra 700 3 =
      ({ almacenContable with estadisticas :=
          { almacenContable.estadisticas with
              misses_obras := almacenContable.estadisticas.misses_obras + 1 } },
       PyVal.vNone))
  ∧ (almacenContable.obtener_obra 700 2 =
      ({ almacenContable with
          cache_obras := eraseA 2 almacenContable.cache_obras,
          estadisticas :=
            { almacenContable.estadisticas with
                misses_obras := almacenContable.estadisticas.misses_obras + 1 } },
       PyVal.vNone)) :=
  ⟨(contabilidad_obtener_obra almacenContable 700 1).1
      ⟨PyVal.vObra obraUno, 650, 600⟩ (by decide)
      (by norm_num [EntradaCache.es_valida]) (by decide),
   (contabilidad_obtener_obra almacenContable 700 3).2.1 (by decide),
   (contabilidad_obtener_obra almacenContable 700 2).2.2
      ⟨PyVal.vObra obraOtra, 0, 600⟩ (by decide)
      (by norm_num [EntradaCache.es_valida])⟩

/-- C7: each invalidation empties exactly its own region, leaving the other
three regions and every counter unchanged; `invalidar_todo_cache` clears all
four regions in one step, also leaving the counters unchanged. -/
theorem independencia_invalidacion (st : AlmacenDatos) :
    ((st.invalidar_cache_obras).cache_obras = []
      ∧ (st.invalidar_cache_obras).cache_departamentos = st.cache_departamentos
      ∧ (st.invalidar_cache_obras).cache_busquedas = st.cache_busquedas
      ∧ (st.invalidar_cache_obras).cache_ids_departamento = st.cache_ids_departamento
      ∧ (st.invalidar_cache_obras).estadisticas = st.estadisticas)
  ∧ ((st.invalidar_cache_departamentos).cache_departamentos = none
      ∧ (st.invalidar_cache_departamentos).cache_obras = st.cache_obras
      ∧ (st.invalidar_cache_departamentos).cache_busquedas = st.cache_busquedas
      ∧ (st.invalidar_cache_departamentos).cache_ids_departamento = st.cache_ids_departamento
      ∧ (st.invalidar_cache_departamentos).estadisticas = st.estadisticas)
  ∧ ((st.invalidar_cache_busquedas).cache_busquedas = []
      ∧ (st.invalidar_cache_busquedas).cache_obras = st.cache_obras
      ∧ (st.invalidar_cache_busquedas).cache_departamentos = st.cache_departamentos
      ∧ (st.invalidar_cache_busquedas).cache_ids_departamento = st.cache_ids_departamento
      ∧ (st.invalidar_cache_busquedas).estadisticas = st.estadisticas)
  ∧ (st.invalidar_todo_cache =
      { st with
          cache_obras := [],
          cache_departamentos := none,
          cache_busquedas := [],
          cache_ids_departamento := [] }) :=
  ⟨⟨rfl, rfl, rfl, rfl, rfl⟩, ⟨rfl, rfl, rfl, rfl, rfl⟩,
   ⟨rfl, rfl, rfl, rfl, rfl⟩, rfl⟩

/-- C6: the four store operations raise `ValueError` exactly on an argument
of the wrong dynamic type - `almacenar_obra` demands an `ObraArte` instance,
the other three demand a Python list - and a raising call returns with every
region and every counter exactly as before.  (The get, search, invalidation,
statistics and cleanup operations are embedded as total functions: the
source has no raise statement outside these four type checks.) -/
theorem validacion_argumentos (st : AlmacenDatos) (now : ℚ) (v : PyVal)
    (clave : String) (d : Int) :
    (((st.almacenar_obra now v).2 = none ↔ v.isObraArte = true)
      ∧ ((st.almacenar_obra now v).2.isSome →
          st.almacenar_obra now v = (st, some MSG_OBRA)))
  ∧ (((st.almacenar_departamentos now v).2 = none ↔ v.isList = true)
      ∧ ((st.almacenar_departamentos now v).2.isSome →
          st.almacenar_departamentos now v = (st, some MSG_DEPARTAMENTOS)))
  ∧ (((st.almacenar_resultado_busqueda now clave v).2 = none ↔ v.isList = true)
      ∧ ((st.almacenar_resultado_busqueda now clave v).2.isSome →
          st.almacenar_resultado_busqueda now clave v = (st, some MSG_LISTA_IDS)))
  ∧ (((st.almacenar_ids_departamento now d v).2 = none ↔ v.isList = true)
      ∧ ((st.almacenar_ids_departamento now d v).2.isSome →
          st.almacenar_ids_departamento now d v = (st, some MSG_LISTA_IDS))) := by
  cases v <;>
    simp [AlmacenDatos.almacenar_obra, AlmacenDatos.almacenar_departamentos,
      AlmacenDatos.almacenar_resultado_busqueda, AlmacenDatos.almacenar_ids_departamento,
      PyVal.isObraArte, PyVal.isList]

/-- Concrete instance of `validacion_argumentos`: feeding the integer 3 to
each store operation raises and leaves the empty store empty. -/
theorem validacion_argumentos_witness :
    (vacio.almacenar_obra 0 (PyVal.vInt 3) = (vacio, some MSG_OBRA))
  ∧ (vacio.almacenar_departamentos 0 (PyVal.vInt 3) = (vacio, some MSG_DEPARTAMENTOS))
  ∧ (vacio.almacenar_resultado_busqueda 0 "retrato" (PyVal.vInt 3) = (vacio, some MSG_LISTA_IDS))
  ∧ (vacio.almacenar_ids_departamento 0 4 (PyVal.vInt 3) = (vacio, some MSG_LISTA_IDS)) :=
  ⟨(validacion_argumentos vacio 0 (PyVal.vInt 3) "retrato" 4).1.2 (by decide),
   (validacion_argumentos vacio 0 (PyVal.vInt 3) "retrato" 4).2.1.2 (by decide),
   (validacion_argumentos vacio 0 (PyVal.vInt 3) "retrato" 4).2.2.1.2 (by decide),
   (validacion_argumentos vacio 0 (PyVal.vInt 3) "retrato" 4).2.2.2.2 (by decide)⟩

/-- C8: the statistics snapshot reports each region's raw entry count (the
function consults no clock, so valid and stale entries are counted alike),
copies every counter, and derives each hit ratio as hits / (hits + misses)
with 0 for an empty denominator; with one works hit and one works miss the
works ratio is 1/2. -/
theorem instantanea_estadisticas (st : AlmacenDatos) :
    ((st.obtener_estadisticas_cache).obras_en_cache = st.cache_obras.length
      ∧ (st.obtener_estadisticas_cache).busquedas_en_cache = st.cache_busquedas.length
      ∧ (st.obtener_estadisticas_cache).departamentos_en_cache =
          (if st.cache_departamentos.isSome then 1 else 0)
      ∧ (st.obtener_estadisticas_cache).ids_departamentos_en_cache =
          st.cache_ids_departamento.length)
  ∧ ((st.obtener_estadisticas_cache).hits_obras = st.estadisticas.hits_obras
      ∧ (st.obtener_estadisticas_cache).misses_obras = st.estadisticas.misses_obras
      ∧ (st.obtener_estadisticas_cache).hits_departamentos = st.estadisticas.hits_departamentos
      ∧ (st.obtener_estadisticas_cache).misses_departamentos = st.estadisticas.misses_departamentos
      ∧ (st.obtener_estadisticas_cache).hits_busquedas = st.estadisticas.hits_busquedas
      ∧ (st.obtener_estadisticas_cache).misses_busquedas = st.estadisticas.misses_busquedas
      ∧ (st.obtener_estadisticas_cache).limpiezas_automaticas = st.estadisticas.limpiezas_automaticas)
  ∧ ((st.obtener_estadisticas_cache).hit_ratio_obras =
        (if 0 < st.estadisticas.hits_obras + st.estadisticas.misses_obras
         then (st.estadisticas.hits_obras : ℚ) /
           ((st.estadisticas.hits_obras + st.estadisticas.misses_obras : ℕ) : ℚ)
         else 0)
      ∧ (st.obtener_estadisticas_cache).hit_ratio_departamentos =
        (if 0 < st.estadisticas.hits_departamentos + st.estadisticas.misses_departamentos
         then (st.estadisticas.hits_departamentos : ℚ) /
           ((st.estadisticas.hits_departamentos + st.estadisticas.misses_departamentos : ℕ) : ℚ)
         else 0)
      ∧ (st.obtener_estadisticas_cache).hit_ratio_busquedas =
        (if 0 < st.estadisticas.hits_busquedas + st.estadisticas.misses_busquedas
         then (st.estadisticas.hits_busquedas : ℚ) /
           ((st.estadisticas.hits_busquedas + st.estadisticas.misses_busquedas : ℕ) : ℚ)
         else 0))
  ∧ (st.estadisticas.hits_obras = 1 → st.estadisticas.misses_obras = 1 →
      (st.obtener_estadisticas_cache).hit_ratio_obras = 1 / 2) := by
  refine ⟨⟨rfl, rfl, rfl, rfl⟩, ⟨rfl, rfl, rfl, rfl, rfl, rfl, rfl⟩, ⟨rfl, rfl, rfl⟩, ?_⟩
  intro h1 h2
  norm_num [AlmacenDatos.obtener_estadisticas_cache, h1, h2]

/-- A store whose works counters record exactly one hit and one miss. -/
def almacenUnoUno : AlmacenDatos :=
  { vacio with estadisticas := ⟨1, 1, 0, 0, 0, 0, 0⟩ }

/-- Concrete instance of `instantanea_estadisticas`: one works hit and one
works miss give a works hit ratio of one half. -/
theorem instantanea_estadisticas_witness :
    (almacenUnoUno.obtener_estadisticas_cache).hit_ratio_obras = 1 / 2 :=
  (instantanea_estadisticas almacenUnoUno).2.2.2 rfl rfl

/-- The memory-per-entry heuristic exactly as the spec words it: 2 KB per
work, 0.1 KB for the occupied departments slot, 0.5 KB per search result,
1 KB per department id-list. -/
def memoria_segun_spec (st : AlmacenDatos) : ℚ :=
  st.cache_obras.length * 2
    + (if st.cache_departamentos.isSome then (1 / 10 : ℚ) else 0)
    + st.cache_busquedas.length * (1 / 2)
    + st.cache_ids_departamento.length * 1

/-- A store whose only content is the departments slot. -/
def almacenSoloDepartamentos : AlmacenDatos :=
  { vacio with cache_departamentos := some ⟨PyVal.vListDep [], 0, 1800⟩ }

/-- C5 counterexample: with only the departments slot occupied the code
reports 5 KB while the spec's heuristic yields 0.1 KB - the claimed figure
of "approximately 0.1 KB for the departments slot" is off by a factor of
fifty (the source comments derive 5 as 50 departments times 0.1 KB). -/
theorem memoria_estimada_contraejemplo :
    (almacenSoloDepartamentos.obtener_estadisticas_cache).memoria_estimada_kb = 5
  ∧ memoria_segun_spec almacenSoloDepartamentos = 1 / 10
  ∧ ((almacenSoloDepartamentos.obtener_estadisticas_cache).memoria_estimada_kb : ℚ)
      ≠ memoria_segun_spec almacenSoloDepartamentos := by
  have h1 : (almacenSoloDepartamentos.obtener_estadisticas_cache).memoria_estimada_kb = 5 := by
    show almacenSoloDepartamentos.estimar_uso_memoria = 5
    norm_num [AlmacenDatos.estimar_uso_memoria, almacenSoloDepartamentos, vacio]
  have h2 : memoria_segun_spec almacenSoloDepartamentos = 1 / 10 := by
    norm_num [memoria_segun_spec, almacenSoloDepartamentos, vacio]
  refine ⟨h1, h2, ?_⟩
  rw [h1, h2]
  norm_num

theorem floor_mitad (n : ℕ) : ⌊((n : ℚ) * (1 / 2) : ℚ)⌋ = (n : ℤ) / 2 := by
  rw [mul_one_div, show ((2 : ℚ)) = ((2 : ℕ) : ℚ) by norm_num,
    Rat.floor_natCast_div_natCast]
  norm_num

/-- C5 (amended): the reported estimate is 2 KB per cached work, 5 KB for
the occupied departments slot (the source comments derive this as about 50
departments of 0.1 KB each), 0.5 KB per cached search result and 1 KB per
cached id-list, truncated to a whole number of KB. -/
theorem memoria_estimada (st : AlmacenDatos) :
    (st.obtener_estadisticas_cache).memoria_estimada_kb =
      2 * (st.cache_obras.length : ℤ)
        + (if st.cache_departamentos.isSome then 5 else 0)
        + (st.cache_busquedas.length : ℤ) / 2
        + (st.cache_ids_departamento.length : ℤ) := by
  show st.estimar_uso_memoria = _
  simp only [AlmacenDatos.estimar_uso_memoria]
  by_cases hd : st.cache_departamentos.isSome
  · simp only [hd, if_true]
    have he : ((st.cache_obras.length : ℚ) * 2 + 5
          + (st.cache_busquedas.length : ℚ) * (1 / 2)
          + (st.cache_ids_departamento.length : ℚ) * 1)
        = ((2 * (st.cache_obras.length : ℤ) + 5 + (st.cache_ids_departamento.length : ℤ) : ℤ) : ℚ)
          + (st.cache_busquedas.length : ℚ) * (1 / 2) := by
      push_cast
      ring
    rw [he, Int.floor_int_add, floor_mitad]
    omega
  · simp only [hd, Bool.false_eq_true, if_false]
    have he : ((st.cache_obras.length : ℚ) * 2 + 0
          + (st.cache_busquedas.length : ℚ) * (1 / 2)
          + (st.cache_ids_departamento.length : ℚ) * 1)
        = ((2 * (st.cache_obras.length : ℤ) + (st.cache_ids_departamento.length : ℤ) : ℤ) : ℚ)
          + (st.cache_busquedas.length : ℚ) * (1 / 2) := by
      push_cast
      ring
    rw [he, Int.floor_int_add, floor_mitad]
    omega

theorem length_filter_not {γ : Type} (l : List γ) (p : γ → Bool) :
    (l.length : ℤ) - ((l.filter p).length : ℤ) =
      ((l.filter (fun a => ! p a)).length : ℤ) := by
  induction l with
  | nil => simp
  | cons a t ih =>
      by_cases h : p a <;> simp [List.filter_cons, h] <;> omega

/-- C9: manual cleanup removes from each region exactly the entries invalid
at call time, keeps every valid entry in place (hence retrievable), leaves
every counter unchanged, and reports per region exactly the number of
removed entries. -/
theorem limpieza_manual (st : AlmacenDatos) (now : ℚ) (hbe : BuenEstado st) :
    ((st.limpiar_cache_manual now).1.cache_obras =
        st.cache_obras.filter (fun p => p.2.es_valida now)
      ∧ (st.limpiar_cache_manual now).1.cache_busquedas =
        st.cache_busquedas.filter (fun p => p.2.es_valida now)
      ∧ (st.limpiar_cache_manual now).1.cache_ids_departamento =
        st.cache_ids_departamento.filter (fun p => p.2.es_valida now)
      ∧ (st.limpiar_cache_manual now).1.cache_departamentos =
        Option.filter (fun e => e.es_valida now) st.cache_departamentos
      ∧ (st.limpiar_cache_manual now).1.estadisticas = st.estadisticas)
  ∧ (∀ (k : Int) (e : EntradaCache), lookupA k st.cache_obras = some e →
        e.es_valida now = true →
        lookupA k (st.limpiar_cache_manual now).1.cache_obras = some e)
  ∧ ((st.limpiar_cache_manual now).2.obras_eliminadas =
        ((st.cache_obras.filter (fun p => ! p.2.es_valida now)).length : ℤ)
      ∧ (st.limpiar_cache_manual now).2.busquedas_eliminadas =
        ((st.cache_busquedas.filter (fun p => ! p.2.es_valida now)).length : ℤ)
      ∧ (st.limpiar_cache_manual now).2.ids_departamentos_eliminados =
        ((st.cache_ids_departamento.filter (fun p => ! p.2.es_valida now)).length : ℤ)
      ∧ (st.limpiar_cache_manual now).2.departamentos_eliminados =
        (match st.cache_departamentos with
         | some e => if e.es_valida now then 0 else 1
         | none => 0)) := by
  obtain ⟨h1, h2, h3⟩ := hbe
  have hro := limpiar_region_eq_filter now h1
  have hrb := limpiar_region_eq_filter now h2
  have hri := limpiar_region_eq_filter now h3
  refine ⟨⟨?_, ?_, ?_, ?_, ?_⟩, ?_, ⟨?_, ?_, ?_, ?_⟩⟩
  · simp only [AlmacenDatos.limpiar_cache_manual, limpiar_entradas_expiradas_eq]
    exact hro
  · simp only [AlmacenDatos.limpiar_cache_manual, limpiar_entradas_expiradas_eq]
    exact hrb
  · simp only [AlmacenDatos.limpiar_cache_manual, limpiar_entradas_expiradas_eq]
    exact hri
  · simp only [AlmacenDatos.limpiar_cache_manual, limpiar_entradas_expiradas_eq]
  · simp only [AlmacenDatos.limpiar_cache_manual, limpiar_entradas_expiradas_eq]
  · intro k e hk hv
    simp only [AlmacenDatos.limpiar_cache_manual, limpiar_entradas_expiradas_eq]
    rw [hro, lookupA_filter h1 _ hk]
    simp [hv]
  · simp only [AlmacenDatos.limpiar_cache_manual, limpiar_entradas_expiradas_eq]
    rw [hro]
    exact length_filter_not st.cache_obras _
  · simp only [AlmacenDatos.limpiar_cache_manual, limpiar_entradas_expiradas_eq]
    rw [hrb]
    exact length_filter_not st.cache_busquedas _
  · simp only [AlmacenDatos.limpiar_cache_manual, limpiar_entradas_expiradas_eq]
    rw [hri]
    exact length_filter_not st.cache_ids_departamento _
  · simp only [AlmacenDatos.limpiar_cache_manual, limpiar_entradas_expiradas_eq]
    cases hd : st.cache_departamentos with
    | none => simp [Option.filter, hd]
    | some e => by_cases hv : e.es_valida now <;> simp [Option.filter, hd, hv]

/-- Store for the cleanup witness: at time 700 the work under key 1 is
expired and the work under key 2 is still live. -/
def almacenLimpieza : AlmacenDatos :=
  { vacio with cache_obras :=
      [(1, ⟨PyVal.vObra obraUno, 0, 600⟩), (2, ⟨PyVal.vObra obraOtra, 650, 600⟩)] }

/-- Concrete instance of `limpieza_manual`: one expired and one live work;
the report counts exactly one removed work and the live one stays
retrievable. -/
theorem limpieza_manual_witness :
    ((almacenLimpieza.limpiar_cache_manual 700).2.obras_eliminadas = 1)
  ∧ (lookupA 2 (almacenLimpieza.limpiar_cache_manual 700).1.cache_obras =
      some ⟨PyVal.vObra obraOtra, 650, 600⟩) := by
  have h := limpieza_manual almacenLimpieza 700 (by decide)
  constructor
  · rw [h.2.2.1]
    norm_num [almacenLimpieza, vacio, List.filter_cons, EntradaCache.es_valida]
  · exact h.2.1 2 ⟨PyVal.vObra obraOtra, 650, 600⟩ (by decide)
      (by norm_num [EntradaCache.es_valida])

section AlmacenamientoLemas

/-- The cache entry built by `almacenar_obra`. -/
def entradaObra (o : ObraArte) (now : ℚ) : EntradaCache :=
  ⟨PyVal.vObra o, now, TIEMPO_VIDA_OBRAS⟩

/-- The cache entry built by `almacenar_resultado_busqueda` on a list of
ids. -/
def entradaBusqueda (l : List Int) (now : ℚ) : EntradaCache :=
  ⟨PyVal.vListInt l, now, TIEMPO_VIDA_BUSQUEDAS⟩

/-- The cache entry built by `almacenar_ids_departamento` on a list of
ids. -/
def entradaListaIds (l : List Int) (now : ℚ) : EntradaCache :=
  ⟨PyVal.vListInt l, now, TIEMPO_VIDA_LISTAS_IDS⟩

/-- The state right after the raw dictionary insertion done by
`almacenar_obra`, before its auto-cleanup check. -/
def conObraInsertada (st : AlmacenDatos) (now : ℚ) (o : ObraArte) : AlmacenDatos :=
  { st with cache_obras := insertA o.id_obra (entradaObra o now) st.cache_obras }

/-- The state right after the raw dictionary insertion done by
`almacenar_resultado_busqueda`, before its auto-cleanup check. -/
def conBusquedaInsertada (st : AlmacenDatos) (now : ℚ) (clave : String)
    (l : List Int) : AlmacenDatos :=
  { st with cache_busquedas := insertA clave (entradaBusqueda l now) st.cache_busquedas }

/-- The state after the raw dictionary insertion done by
`almacenar_ids_departamento` (which is the whole of its mutation). -/
def conIdsInsertados (st : AlmacenDatos) (now : ℚ) (d : Int) (l : List Int) :
    AlmacenDatos :=
  { st with cache_ids_departamento := insertA d (entradaListaIds l now) st.cache_ids_departamento }

/-- `almacenar_obra` on a genuine work: insert keyed by its id, then the
auto-cleanup check. -/
theorem almacenar_obra_eq (st : AlmacenDatos) (now : ℚ) (o : ObraArte) :
    st.almacenar_obra now (PyVal.vObra o) =
      ((conObraInsertada st now o).limpiar_cache_si_necesario now, none) := rfl

/-- `almacenar_resultado_busqueda` on a genuine list. -/
theorem almacenar_resultado_busqueda_eq (st : AlmacenDatos) (now : ℚ)
    (clave : String) (l : List Int) :
    st.almacenar_resultado_busqueda now clave (PyVal.vListInt l) =
      ((conBusquedaInsertada st now clave l).limpiar_cache_si_necesario now, none) := rfl

/-- `almacenar_ids_departamento` on a genuine list: a pure insertion, with no
auto-cleanup check. -/
theorem almacenar_ids_departamento_eq (st : AlmacenDatos) (now : ℚ) (d : Int)
    (l : List Int) :
    st.almacenar_ids_departamento now d (PyVal.vListInt l) =
      (conIdsInsertados st now d l, none) := rfl

theorem count_claves_eq_one {α β : Type} [DecidableEq α] {l : List (α × β)}
    {k : α} {v : β} (h : NodupKeys l) (hk : lookupA k l = some v) :
    (claves l).count k = 1 :=
  List.count_eq_one_of_mem h (mem_claves_of_lookupA hk)

/-- Every entry that survives a region sweep is valid at sweep time. -/
theorem lookupA_limpiar_region_valida {α : Type} [DecidableEq α] {now : ℚ}
    {l : List (α × EntradaCache)} (h : NodupKeys l) {k : α} {e : EntradaCache}
    (hk : lookupA k (AlmacenDatos.limpiar_region now l) = some e) :
    e.es_valida now = true := by
  rw [limpiar_region_eq_filter now h] at hk
  have hm := lookupA_mem hk
  simpa using (List.mem_filter.mp hm).2

theorem hits_busquedas_limpiar_cache_si_necesario (st : AlmacenDatos) (now : ℚ) :
    (st.limpiar_cache_si_necesario now).estadisticas.hits_busquedas =
      st.estadisticas.hits_busquedas := by
  rw [estadisticas_limpiar_cache_si_necesario]
  split <;> rfl

end AlmacenamientoLemas

/-- C1: round-trip of the works region.  Storing a work and reading it back
by its id within the TTL returns that same work; reading an id with no entry
returns `None`; and storing two works with the same id in sequence leaves
exactly one entry under that id, the retrievable one being the work stored
last. -/
theorem ida_y_vuelta_obras (st : AlmacenDatos) (now now2 now' : ℚ) (o o2 : ObraArte)
    (i : Int) (hbe : BuenEstado st)
    (h1 : now' - now < TIEMPO_VIDA_OBRAS)
    (h2 : now' - now2 < TIEMPO_VIDA_OBRAS)
    (hid : o2.id_obra = o.id_obra) :
    (((st.almacenar_obra now (PyVal.vObra o)).1.obtener_obra now' o.id_obra).2 = PyVal.vObra o)
  ∧ (lookupA i st.cache_obras = none → (st.obtener_obra now' i).2 = PyVal.vNone)
  ∧ ((claves (((st.almacenar_obra now (PyVal.vObra o)).1.almacenar_obra now2
        (PyVal.vObra o2)).1.cache_obras)).count o.id_obra = 1)
  ∧ ((((st.almacenar_obra now (PyVal.vObra o)).1.almacenar_obra now2
        (PyVal.vObra o2)).1.obtener_obra now' o.id_obra).2 = PyVal.vObra o2) := by
  have hins : NodupKeys (insertA o.id_obra
      (⟨PyVal.vObra o, now, TIEMPO_VIDA_OBRAS⟩ : EntradaCache) st.cache_obras) :=
    nodupKeys_insertA _ _ hbe.1
  have hv_now' : (⟨PyVal.vObra o, now, TIEMPO_VIDA_OBRAS⟩ : EntradaCache).es_valida now' = true :=
    entrada_valida_de_lt _ _ _ _ h1
  have hv_now : (⟨PyVal.vObra o, now, TIEMPO_VIDA_OBRAS⟩ : EntradaCache).es_valida now = true :=
    entrada_valida_de_lt _ _ _ _ (by rw [sub_self]; norm_num [TIEMPO_VIDA_OBRAS])
  have hlookA : lookupA o.id_obra ((st.almacenar_obra now (PyVal.vObra o)).1).cache_obras
      = some ⟨PyVal.vObra o, now, TIEMPO_VIDA_OBRAS⟩ := by
    rw [almacenar_obra_eq]
    exact lookupA_obras_limpiar_si_necesario now hins (lookupA_insertA_self _ _ _) hv_now
  have hbeA : BuenEstado (st.almacenar_obra now (PyVal.vObra o)).1 :=
    buenEstado_almacenar_obra now _ hbe
  have hinsB : NodupKeys (insertA o2.id_obra
      (⟨PyVal.vObra o2, now2, TIEMPO_VIDA_OBRAS⟩ : EntradaCache)
      ((st.almacenar_obra now (PyVal.vObra o)).1).cache_obras) :=
    nodupKeys_insertA _ _ hbeA.1
  have hv2_now2 : (⟨PyVal.vObra o2, now2, TIEMPO_VIDA_OBRAS⟩ : EntradaCache).es_valida now2 = true :=
    entrada_valida_de_lt _ _ _ _ (by rw [sub_self]; norm_num [TIEMPO_VIDA_OBRAS])
  have hv2_now' : (⟨PyVal.vObra o2, now2, TIEMPO_VIDA_OBRAS⟩ : EntradaCache).es_valida now' = true :=
    entrada_valida_de_lt _ _ _ _ h2
  have hlkIns : lookupA o.id_obra (insertA o2.id_obra
      (⟨PyVal.vObra o2, now2, TIEMPO_VIDA_OBRAS⟩ : EntradaCache)
      ((st.almacenar_obra now (PyVal.vObra o)).1).cache_obras)
      = some ⟨PyVal.vObra o2, now2, TIEMPO_VIDA_OBRAS⟩ := by
    rw [← hid]
    exact lookupA_insertA_self _ _ _
  have hlookB : lookupA o.id_obra (((st.almacenar_obra now (PyVal.vObra o)).1.almacenar_obra
      now2 (PyVal.vObra o2)).1).cache_obras
      = some ⟨PyVal.vObra o2, now2, TIEMPO_VIDA_OBRAS⟩ := by
    rw [almacenar_obra_eq]
    exact lookupA_obras_limpiar_si_necesario now2 hinsB hlkIns hv2_now2
  have hbeB : BuenEstado ((st.almacenar_obra now (PyVal.vObra o)).1.almacenar_obra
      now2 (PyVal.vObra o2)).1 :=
    buenEstado_almacenar_obra now2 _ hbeA
  refine ⟨?_, ?_, ?_, ?_⟩
  · rw [obtener_obra_hit hlookA hv_now' (by simp)]
  · intro hnone
    rw [obtener_obra_ausente hnone]
  · exact count_claves_eq_one hbeB.1 hlookB
  · rw [obtener_obra_hit hlookB hv2_now' (by simp)]

/-- Concrete instance of `ida_y_vuelta_obras`: store at time 0, overwrite at
time 50 under the same id, read back at time 100. -/
theorem ida_y_vuelta_obras_witness :
    (((vacio.almacenar_obra 0 (PyVal.vObra obraUno)).1.obtener_obra 100 obraUno.id_obra).2
      = PyVal.vObra obraUno)
  ∧ ((vacio.obtener_obra 100 42).2 = PyVal.vNone)
  ∧ ((claves (((vacio.almacenar_obra 0 (PyVal.vObra obraUno)).1.almacenar_obra 50
        (PyVal.vObra obraDos)).1.cache_obras)).count obraUno.id_obra = 1)
  ∧ ((((vacio.almacenar_obra 0 (PyVal.vObra obraUno)).1.almacenar_obra 50
        (PyVal.vObra obraDos)).1.obtener_obra 100 obraUno.id_obra).2 = PyVal.vObra obraDos) := by
  have h := ida_y_vuelta_obras vacio 0 50 100 obraUno obraDos 42 (by decide)
    (by norm_num [TIEMPO_VIDA_OBRAS]) (by norm_num [TIEMPO_VIDA_OBRAS]) (by decide)
  exact ⟨h.1, h.2.1 (by decide), h.2.2.1, h.2.2.2⟩

/-- C10: a cached empty list is a hit, not a miss.  After storing the empty
list under a search key, a read within the TTL returns the empty list and
grows the search hit counter by one; likewise an empty stored department
list is returned as a hit.  The `None` miss sentinel is thus distinguishable
from a cached empty result. -/
theorem lista_vacia_es_hit (st : AlmacenDatos) (now now' : ℚ) (clave : String)
    (hbe : BuenEstado st)
    (h1 : now' - now < TIEMPO_VIDA_BUSQUEDAS)
    (h2 : now' - now < TIEMPO_VIDA_DEPARTAMENTOS) :
    (((st.almacenar_resultado_busqueda now clave (PyVal.vListInt [])).1.obtener_resultado_busqueda
        now' clave).2 = PyVal.vListInt [])
  ∧ (((st.almacenar_resultado_busqueda now clave (PyVal.vListInt [])).1.obtener_resultado_busqueda
        now' clave).1.estadisticas.hits_busquedas = st.estadisticas.hits_busquedas + 1)
  ∧ (((st.almacenar_departamentos now (PyVal.vListDep [])).1.obtener_departamentos now').2
      = PyVal.vListDep [])
  ∧ (((st.almacenar_departamentos now (PyVal.vListDep [])).1.obtener_departamentos
        now').1.estadisticas.hits_departamentos = st.estadisticas.hits_departamentos + 1) := by
  have hv_now' : (⟨PyVal.vListInt [], now, TIEMPO_VIDA_BUSQUEDAS⟩ : EntradaCache).es_valida now'
      = true := entrada_valida_de_lt _ _ _ _ h1
  have hv_now : (⟨PyVal.vListInt [], now, TIEMPO_VIDA_BUSQUEDAS⟩ : EntradaCache).es_valida now
      = true :=
    entrada_valida_de_lt _ _ _ _ (by rw [sub_self]; norm_num [TIEMPO_VIDA_BUSQUEDAS])
  have hlook : lookupA clave ((st.almacenar_resultado_busqueda now clave
      (PyVal.vListInt [])).1).cache_busquedas
      = some ⟨PyVal.vListInt [], now, TIEMPO_VIDA_BUSQUEDAS⟩ := by
    rw [almacenar_resultado_busqueda_eq]
    exact lookupA_busquedas_limpiar_si_necesario now (nodupKeys_insertA _ _ hbe.2.1)
      (lookupA_insertA_self _ _ _) hv_now
  have hget := obtener_resultado_busqueda_hit hlook hv_now' (by simp)
  have hd : ((st.almacenar_departamentos now (PyVal.vListDep [])).1).cache_departamentos
      = some ⟨PyVal.vListDep [], now, TIEMPO_VIDA_DEPARTAMENTOS⟩ := rfl
  have hvD : (⟨PyVal.vListDep [], now, TIEMPO_VIDA_DEPARTAMENTOS⟩ : EntradaCache).es_valida now'
      = true := entrada_valida_de_lt _ _ _ _ h2
  have hgetD := obtener_departamentos_hit hd hvD (by simp)
  refine ⟨?_, ?_, ?_, ?_⟩
  · rw [hget]
  · rw [hget]
    show ((st.almacenar_resultado_busqueda now clave (PyVal.vListInt [])).1).estadisticas.hits_busquedas + 1
      = st.estadisticas.hits_busquedas + 1
    rw [almacenar_resultado_busqueda_eq, hits_busquedas_limpiar_cache_si_necesario]
    rfl
  · rw [hgetD]
  · rw [hgetD]
    rfl

/-- Concrete instance of `lista_vacia_es_hit` on the empty store at times 0
and 100. -/
theorem lista_vacia_es_hit_witness :
    (((vacio.almacenar_resultado_busqueda 0 "autor:goya" (PyVal.vListInt [])).1.obtener_resultado_busqueda
        100 "autor:goya").2 = PyVal.vListInt [])
  ∧ (((vacio.almacenar_resultado_busqueda 0 "autor:goya" (PyVal.vListInt [])).1.obtener_resultado_busqueda
        100 "autor:goya").1.estadisticas.hits_busquedas = vacio.estadisticas.hits_busquedas + 1)
  ∧ (((vacio.almacenar_departamentos 0 (PyVal.vListDep [])).1.obtener_departamentos 100).2
      = PyVal.vListDep [])
  ∧ (((vacio.almacenar_departamentos 0 (PyVal.vListDep [])).1.obtener_departamentos
        100).1.estadisticas.hits_departamentos = vacio.estadisticas.hits_departamentos + 1) :=
  lista_vacia_es_hit vacio 0 100 "autor:goya" (by decide)
    (by norm_num [TIEMPO_VIDA_BUSQUEDAS]) (by norm_num [TIEMPO_VIDA_DEPARTAMENTOS])

/-- The statistics update performed when an automatic cleanup fires: only
the `limpiezas_automaticas` counter grows, by exactly one. -/
def conLimpiezaContada (e : Estadisticas) : Estadisticas :=
  { e with limpiezas_automaticas := e.limpiezas_automaticas + 1 }

/-- C4 (amended): after an insertion through `almacenar_obra` or
`almacenar_resultado_busqueda`, if the combined number of entries in the
works, search-results and department-id-list regions exceeds 1000, the full
expiry sweep runs inside that same call - every one of the three keyed
regions is filtered down to its still-valid entries and the departments
slot is dropped when expired, exactly the logic of manual cleanup - and the
automatic-cleanup counter grows by exactly one while every other counter is
unchanged; at 1000 entries or fewer the call is the pure insertion and the
counters are unchanged.  `almacenar_ids_departamento`, by contrast, is
always the pure insertion: it never sweeps and never touches the
counter. -/
theorem politica_limpieza_automatica (st : AlmacenDatos) (now : ℚ) (o : ObraArte)
    (clave : String) (l : List Int) (d : Int) (hbe : BuenEstado st) :
    ((1000 < (conObraInsertada st now o).total_entradas →
        ((st.almacenar_obra now (PyVal.vObra o)).1.cache_obras
            = (conObraInsertada st now o).cache_obras.filter (fun p => p.2.es_valida now)
          ∧ (st.almacenar_obra now (PyVal.vObra o)).1.cache_busquedas
            = st.cache_busquedas.filter (fun p => p.2.es_valida now)
          ∧ (st.almacenar_obra now (PyVal.vObra o)).1.cache_ids_departamento
            = st.cache_ids_departamento.filter (fun p => p.2.es_valida now)
          ∧ (st.almacenar_obra now (PyVal.vObra o)).1.cache_departamentos
            = Option.filter (fun e => e.es_valida now) st.cache_departamentos
          ∧ (st.almacenar_obra now (PyVal.vObra o)).1.estadisticas
            = conLimpiezaContada st.estadisticas))
      ∧ ((conObraInsertada st now o).total_entradas ≤ 1000 →
          (st.almacenar_obra now (PyVal.vObra o)).1 = conObraInsertada st now o))
  ∧ ((1000 < (conBusquedaInsertada st now clave l).total_entradas →
        ((st.almacenar_resultado_busqueda now clave (PyVal.vListInt l)).1.cache_obras
            = st.cache_obras.filter (fun p => p.2.es_valida now)
          ∧ (st.almacenar_resultado_busqueda now clave (PyVal.vListInt l)).1.cache_busquedas
            = (conBusquedaInsertada st now clave l).cache_busquedas.filter
                (fun p => p.2.es_valida now)
          ∧ (st.almacenar_resultado_busqueda now clave (PyVal.vListInt l)).1.cache_ids_departamento
            = st.cache_ids_departamento.filter (fun p => p.2.es_valida now)
          ∧ (st.almacenar_resultado_busqueda now clave (PyVal.vListInt l)).1.cache_departamentos
            = Option.filter (fun e => e.es_valida now) st.cache_departamentos
          ∧ (st.almacenar_resultado_busqueda now clave (PyVal.vListInt l)).1.estadisticas
            = conLimpiezaContada st.estadisticas))
      ∧ ((conBusquedaInsertada st now clave l).total_entradas ≤ 1000 →
          (st.almacenar_resultado_busqueda now clave (PyVal.vListInt l)).1
            = conBusquedaInsertada st now clave l))
  ∧ ((st.almacenar_ids_departamento now d (PyVal.vListInt l)).1 = conIdsInsertados st now d l
      ∧ (st.almacenar_ids_departamento now d
          (PyVal.vListInt l)).1.estadisticas.limpiezas_automaticas
        = st.estadisticas.limpiezas_automaticas) := by
  refine ⟨⟨?_, ?_⟩, ⟨?_, ?_⟩, rfl, rfl⟩
  · intro hgt
    refine ⟨?_, ?_, ?_, ?_, ?_⟩ <;>
      (simp only [almacenar_obra_eq, AlmacenDatos.limpiar_cache_si_necesario, if_pos hgt,
         limpiar_entradas_expiradas_eq];
       simp only [conObraInsertada, conLimpiezaContada])
    · exact limpiar_region_eq_filter now (nodupKeys_insertA _ _ hbe.1)
    · exact limpiar_region_eq_filter now hbe.2.1
    · exact limpiar_region_eq_filter now hbe.2.2
  · intro hle
    simp only [almacenar_obra_eq]
    unfold AlmacenDatos.limpiar_cache_si_necesario
    rw [if_neg (by omega)]
  · intro hgt
    refine ⟨?_, ?_, ?_, ?_, ?_⟩ <;>
      (simp only [almacenar_resultado_busqueda_eq, AlmacenDatos.limpiar_cache_si_necesario,
         if_pos hgt, limpiar_entradas_expiradas_eq];
       simp only [conBusquedaInsertada, conLimpiezaContada])
    · exact limpiar_region_eq_filter now hbe.1
    · exact limpiar_region_eq_filter now (nodupKeys_insertA _ _ hbe.2.1)
    · exact limpiar_region_eq_filter now hbe.2.2
  · intro hle
    simp only [almacenar_resultado_busqueda_eq]
    unfold AlmacenDatos.limpiar_cache_si_necesario
    rw [if_neg (by omega)]

/-- A single id-list entry that is already expired at time 1000. -/
def entradaExpirada : EntradaCache := ⟨PyVal.vListInt [], 0, 180⟩

/-- 999 id-list entries under the keys 2..1000, created at time 900. -/
def restoListas : List (Int × EntradaCache) :=
  (List.range 999).map
    (fun i => (Int.ofNat i + 2, (⟨PyVal.vListInt [], 900, 180⟩ : EntradaCache)))

/-- The 1001-entry id-list region of the counterexample store, with the
entry under key 1 expired at time 1000. -/
def listasGrandes : List (Int × EntradaCache) :=
  (0, ⟨PyVal.vListInt [], 900, 180⟩) :: (1, entradaExpirada) :: restoListas

/-- A store holding 1001 id-list entries, one of them expired at time
1000. -/
def almacenGrandeExpirado : AlmacenDatos :=
  { vacio with cache_ids_departamento := listasGrandes }

/-- C4 counterexample: a department-id-list insertion that leaves 1001
combined entries (> 1000) neither runs the expiry sweep - the entry expired
at time 1000 survives - nor increments the automatic-cleanup counter,
refuting the claim for this region. -/
theorem politica_limpieza_automatica_contraejemplo :
    (1000 < AlmacenDatos.total_entradas
        (almacenGrandeExpirado.almacenar_ids_departamento 1000 0 (PyVal.vListInt [7])).1)
  ∧ ((almacenGrandeExpirado.almacenar_ids_departamento 1000 0
        (PyVal.vListInt [7])).1.estadisticas.limpiezas_automaticas = 0)
  ∧ (lookupA 1 (almacenGrandeExpirado.almacenar_ids_departamento 1000 0
        (PyVal.vListInt [7])).1.cache_ids_departamento = some entradaExpirada)
  ∧ (entradaExpirada.es_valida 1000 = false) := by
  refine ⟨?_, rfl, ?_, ?_⟩
  · simp only [almacenar_ids_departamento_eq]
    simp [AlmacenDatos.total_entradas, conIdsInsertados, almacenGrandeExpirado, vacio,
      listasGrandes, restoListas, insertA, List.length_map, List.length_range]
  · simp only [almacenar_ids_departamento_eq]
    simp [conIdsInsertados, almacenGrandeExpirado, vacio, listasGrandes, insertA, lookupA]
  · norm_num [entradaExpirada, EntradaCache.es_valida]

/-- 1001 id-list entries under the keys 0..1000, all created at time 0. -/
def milListas : List (Int × EntradaCache) :=
  (List.range 1001).map
    (fun i => (Int.ofNat i, (⟨PyVal.vListInt [], 0, 180⟩ : EntradaCache)))

/-- A store holding 1001 id-list entries. -/
def almacenGrande : AlmacenDatos := { vacio with cache_ids_departamento := milListas }

theorem nodupKeys_milListas : NodupKeys milListas := by
  unfold milListas NodupKeys claves
  rw [List.map_map]
  have hcomp : (Prod.fst ∘ fun i : ℕ =>
      (Int.ofNat i, (⟨PyVal.vListInt [], 0, 180⟩ : EntradaCache))) = Int.ofNat := rfl
  rw [hcomp]
  exact (List.nodup_range 1001).map (fun a b h => Int.ofNat.inj h)

set_option maxRecDepth 10000 in
theorem buenEstado_almacenGrande : BuenEstado almacenGrande :=
  ⟨List.nodup_nil, List.nodup_nil, nodupKeys_milListas⟩

theorem total_almacenGrande :
    1000 < (conObraInsertada almacenGrande 0 obraUno).total_entradas := by
  simp [AlmacenDatos.total_entradas, conObraInsertada, almacenGrande, vacio, milListas,
    insertA, List.length_map, List.length_range]

set_option maxRecDepth 10000 in
/-- Concrete instance of `politica_limpieza_automatica`: with 1001 id-list
entries already cached, storing one work pushes the combined count past 1000
and bumps the automatic-cleanup counter by exactly one, while on the empty
store the same call is a pure insertion. -/
theorem politica_limpieza_automatica_witness :
    ((almacenGrande.almacenar_obra 0 (PyVal.vObra obraUno)).1.estadisticas
      = conLimpiezaContada almacenGrande.estadisticas)
  ∧ ((vacio.almacenar_obra 0 (PyVal.vObra obraUno)).1 = conObraInsertada vacio 0 obraUno) :=
  ⟨((politica_limpieza_automatica almacenGrande 0 obraUno "clave" [] 5
      buenEstado_almacenGrande).1.1 total_almacenGrande).2.2.2.2,
   (politica_limpieza_automatica vacio 0 obraUno "clave" [] 5 (by decide)).1.2 (by decide)⟩
